import Mathlib

/-!
# Verification of the STRIDE threat-model generator

This development gives a shallow embedding, in Lean 4, of the core algorithms of
the automated STRIDE threat-model generator contained in this repository:

* the original generator (`StrideModelGenerator`, Claude-based): its per-section
  risk-level keyword scan, description truncation, percentage computation and
  endpoint vulnerability ranking;
* the refactored generator (Google-AI based): its free-text STRIDE response
  parser `parseStrideThreats`, the per-asset model construction, report
  statistics, the endpoint ranking of the markdown report, and the in-place
  sort applied to the global threat model while rendering the report.

JavaScript strings are modelled as Lean `String` (lists of characters; the
source only manipulates ASCII text, where UTF-16 code units and characters
coincide).  JavaScript regular expressions are hand-compiled: each concrete
pattern of the source is translated into a deterministic scanning function with
the same backtracking-resolution semantics, documented at each definition.
`console` logging is modelled by returning a list of emitted messages.
IEEE-754 division by zero (`NaN`) is modelled by `Option ℚ` (`none` = no
numeric value); exact percentage values are rationals.
-/

namespace Stride

/-! ## Character and string primitives -/

/-- JavaScript `\s` on the ASCII range: space, tab, LF, CR, vertical tab,
form feed (the source texts are ASCII). -/
def isJsSpace (c : Char) : Bool :=
  c = ' ' || c = '\t' || c = '\n' || c = '\r' || c = '\x0b' || c = '\x0c'

/-- Characters matched by the bullet class `[-\*\d]` of the source regexes. -/
def isBullet (c : Char) : Bool :=
  c = '-' || c = '*' || c.isDigit

/-- Lowercasing a character sequence, as JavaScript `toLowerCase` does on
ASCII text. -/
def lowerL (l : List Char) : List Char := l.map Char.toLower

/-- JavaScript `String.prototype.toLowerCase` (ASCII). -/
def toLowerStr (s : String) : String := ⟨lowerL s.data⟩

/-- Case-insensitive "starts with": the needle matches a prefix of the
haystack up to ASCII case. -/
def ciStartsWith (hay needle : List Char) : Bool :=
  (lowerL needle).isPrefixOf (lowerL hay)

/-- Substring test on character lists (JavaScript `String.prototype.includes`,
case-sensitive). -/
def includesL (hay needle : List Char) : Bool :=
  match hay with
  | [] => needle.isEmpty
  | _ :: t => needle.isPrefixOf hay || includesL t needle

/-- JavaScript `String.prototype.includes`. -/
def jsIncludes (hay needle : String) : Bool := includesL hay.data needle.data

/-- JavaScript `String.prototype.trim` (both ends, `\s`). -/
def trimL (l : List Char) : List Char :=
  ((l.dropWhile isJsSpace).reverse.dropWhile isJsSpace).reverse

/-- JavaScript `String.prototype.trim` on `String`. -/
def trimStr (s : String) : String := ⟨trimL s.data⟩

/-- JavaScript `s.substring(0, n)` (here: first `n` characters). -/
def takeStr (s : String) (n : Nat) : String := ⟨s.data.take n⟩

/-- JavaScript `String.prototype.replace` with a *string* pattern: replace the
first occurrence of `pat` by `repl`, or return the string unchanged when `pat`
does not occur. -/
def replaceFirstL (l pat repl : List Char) : List Char :=
  match l with
  | [] => []
  | c :: t =>
    if pat.isPrefixOf l then repl ++ l.drop pat.length
    else c :: replaceFirstL t pat repl

/-- `replaceFirstL` on `String`. -/
def replaceFirst (s pat repl : String) : String :=
  ⟨replaceFirstL s.data pat.data repl.data⟩

/-- Split a character list at every position (strictly inside a piece) where
the zero-width lookahead `look` holds — the semantics of JavaScript
`String.prototype.split` applied to a pure-lookahead regex: a zero-width match
at the start of the current piece never produces an empty piece. -/
def splitAtLookahead (look : List Char → Bool) : List Char → List (List Char) :=
  go []
where
  go (cur : List Char) : List Char → List (List Char)
  | [] => [cur.reverse]
  | c :: rs =>
    if !cur.isEmpty && look (c :: rs) then cur.reverse :: go [c] rs
    else go (c :: cur) rs

/-- Lazily consume characters until the zero-width lookahead `look` holds (or
the end of the text is reached): the semantics of a reluctant `[\s\S]*?`
followed by `(?=…|$)`.  Returns the consumed part and the rest. -/
def takeUntilLookahead (look : List Char → Bool) : List Char → List Char × List Char
  | [] => ([], [])
  | c :: t =>
    if look (c :: t) then ([], c :: t)
    else
      let (a, b) := takeUntilLookahead look t
      (c :: a, b)

/-- Scan a text left to right and return the first successful application of a
single-position matcher `f` to a suffix (the semantics of an unanchored
JavaScript regex search: the leftmost position at which the whole pattern
matches wins).  The empty suffix is tried last. -/
def scanFirst (f : List Char → Option β) : List Char → Option β
  | [] => f []
  | c :: t =>
    match f (c :: t) with
    | some b => some b
    | none => scanFirst f t

/-! ## Threat data model

The `threats` element type of the `ThreatModel` interface of the source.  The
TypeScript `category` and `riskLevel` fields are string-literal union *types*;
at runtime they are plain strings (and the `as`-casts of the parser can in fact
produce strings outside the union, which this model keeps observable), so both
are modelled as `String`. -/

structure Threat where
  category : String
  description : String
  riskLevel : String
  mitigationStrategy : String
deriving DecidableEq

/-- The `ThreatModel` interface of the source: one analyzed asset.  `assetType` is
one of `"endpoint"`, `"data"`, `"process"`. -/
structure ThreatModel where
  assetName : String
  assetType : String
  threats : List Threat
deriving DecidableEq

/-- The six canonical STRIDE categories, in the fixed enumeration order used
throughout the source. -/
def strideCategories : List String :=
  ["Spoofing", "Tampering", "Repudiation",
   "Information Disclosure", "Denial of Service", "Elevation of Privilege"]

/-! ## Stable descending sort

JavaScript `Array.prototype.sort` with a comparator `(a, b) => key(b) - key(a)`
is a *stable* sort into descending key order.  Stable sorting by a total
preorder has a unique result, so any stable algorithm models it; we use
insertion sort: traversing the array left to right, each element is inserted
after all already-placed elements of greater-or-equal key. -/

/-- Insert `x` into `l` (already in descending key order) just before the first
element of strictly smaller key. -/
def insertDescBy (key : α → Int) (x : α) : List α → List α
  | [] => [x]
  | y :: ys => if key y < key x then x :: y :: ys else y :: insertDescBy key x ys

/-- Stable sort into descending `key` order (the unique result of
`.sort((a, b) => key(b) - key(a))`). -/
def sortDescBy (key : α → Int) (l : List α) : List α :=
  l.foldl (fun acc x => insertDescBy key x acc) []

theorem mem_insertDescBy (key : α → Int) (x : α) (l : List α) (z : α) :
    z ∈ insertDescBy key x l ↔ z = x ∨ z ∈ l := by
  induction l with
  | nil => simp [insertDescBy]
  | cons y ys ih =>
    simp only [insertDescBy]
    split <;> (simp only [List.mem_cons, ih]; try tauto)

theorem perm_insertDescBy (key : α → Int) (x : α) (l : List α) :
    (insertDescBy key x l).Perm (x :: l) := by
  induction l with
  | nil => simp [insertDescBy]
  | cons y ys ih =>
    simp only [insertDescBy]
    split
    · exact List.Perm.refl _
    · exact (List.Perm.cons y ih).trans (List.Perm.swap x y ys)

theorem sorted_insertDescBy (key : α → Int) (x : α) (l : List α)
    (h : List.Sorted (fun a b => key b ≤ key a) l) :
    List.Sorted (fun a b => key b ≤ key a) (insertDescBy key x l) := by
  induction l with
  | nil => simp [insertDescBy]
  | cons y ys ih =>
    simp only [insertDescBy]
    rcases List.sorted_cons.mp h with ⟨hy, hys⟩
    split
    · rename_i hlt
      refine List.sorted_cons.mpr ⟨?_, h⟩
      intro b hb
      rcases List.mem_cons.mp hb with hb | hb
      · subst hb; exact le_of_lt hlt
      · exact le_trans (hy b hb) (le_of_lt hlt)
    · rename_i hnlt
      refine List.sorted_cons.mpr ⟨?_, ih hys⟩
      intro b hb
      rcases (mem_insertDescBy key x ys b).mp hb with hb | hb
      · subst hb; exact le_of_not_lt hnlt
      · exact hy b hb

theorem sorted_sortDescBy (key : α → Int) (l : List α) :
    List.Sorted (fun a b => key b ≤ key a) (sortDescBy key l) := by
  have main : ∀ (l acc : List α), List.Sorted (fun a b => key b ≤ key a) acc →
      List.Sorted (fun a b => key b ≤ key a)
        (l.foldl (fun acc x => insertDescBy key x acc) acc) := by
    intro l
    induction l with
    | nil => intro acc h; simpa using h
    | cons x xs ih =>
      intro acc h
      exact ih _ (sorted_insertDescBy key x acc h)
  exact main l [] (by simp)

theorem perm_sortDescBy (key : α → Int) (l : List α) :
    (sortDescBy key l).Perm l := by
  have main : ∀ (l acc : List α),
      (l.foldl (fun acc x => insertDescBy key x acc) acc).Perm (acc ++ l) := by
    intro l
    induction l with
    | nil => intro acc; simp
    | cons x xs ih =>
      intro acc
      refine (ih (insertDescBy key x acc)).trans ?_
      have h1 : (insertDescBy key x acc ++ xs).Perm ((x :: acc) ++ xs) :=
        (perm_insertDescBy key x acc).append_right xs
      refine h1.trans ?_
      simpa using List.perm_middle.symm
  simpa using main l []

theorem insertDescBy_append_of_le (key : α → Int) (x : α) (l : List α)
    (h : ∀ y ∈ l, key x ≤ key y) : insertDescBy key x l = l ++ [x] := by
  induction l with
  | nil => rfl
  | cons y ys ih =>
    simp only [insertDescBy]
    rw [if_neg (not_lt.mpr (h y (by simp)))]
    simp only [List.cons_append, List.cons.injEq, true_and]
    exact ih fun z hz => h z (by simp [hz])

theorem sortDescBy_of_sorted (key : α → Int) (l : List α)
    (h : List.Sorted (fun a b => key b ≤ key a) l) : sortDescBy key l = l := by
  have main : ∀ (l acc : List α),
      List.Sorted (fun a b => key b ≤ key a) (acc ++ l) →
      l.foldl (fun acc x => insertDescBy key x acc) acc = acc ++ l := by
    intro l
    induction l with
    | nil => intro acc _; simp
    | cons x xs ih =>
      intro acc hacc
      have hx : ∀ y ∈ acc, key x ≤ key y := by
        intro y hy
        have := (List.pairwise_append.mp hacc).2.2 y hy x (by simp)
        exact this
      have hstep : insertDescBy key x acc = acc ++ [x] :=
        insertDescBy_append_of_le key x acc hx
      simp only [List.foldl_cons, hstep]
      have := ih (acc ++ [x]) (by simpa using hacc)
      simpa using this
  simpa using main l [] (by simpa using h)

/-! ## The original generator (v1)

Functions of the first `StrideModelGenerator` class (Claude-based): the
per-STRIDE-section processing inside `generateEndpointThreatModel` /
`generateDataThreatModel`, the report percentages, and the endpoint
vulnerability ranking of its `generateMarkdownReport`. -/

/-- Risk-level extraction of the original generator (identical code in
`generateEndpointThreatModel` and `generateDataThreatModel`):

```
let riskLevel = "Medium";
if (section.toLowerCase().includes("high risk") || section.toLowerCase().includes("risk: high")) {
  riskLevel = "High";
} else if (section.toLowerCase().includes("critical risk") || section.toLowerCase().includes("risk: critical")) {
  riskLevel = "Critical";
} else if (section.toLowerCase().includes("low risk") || section.toLowerCase().includes("risk: low")) {
  riskLevel = "Low";
}
```
-/
def extractRiskLevelV1 (sectionText : String) : String :=
  let l := toLowerStr sectionText
  if jsIncludes l "high risk" || jsIncludes l "risk: high" then "High"
  else if jsIncludes l "critical risk" || jsIncludes l "risk: critical" then "Critical"
  else if jsIncludes l "low risk" || jsIncludes l "risk: low" then "Low"
  else "Medium"

/-- Description truncation of the original generator:

```
if (description.length > 150) {
  description = description.substring(0, 150) + "...";
}
```
-/
def truncateDescriptionV1 (description : String) : String :=
  if description.length > 150 then takeStr description 150 ++ "..." else description

/-- Full description pipeline of the per-category
processing of the original generator (lines `description = section.replace(category, emptyString).trim()`
through the truncation):  remove the first occurrence of the category name,
trim, cut everything from the first occurrence of `Mitigation` on, trim
again, then truncate to 150 characters plus ellipsis. -/
def extractDescriptionV1 (category sectionText : String) : String :=
  let d0 := trimStr (replaceFirst sectionText category "")
  let d1 :=
    if jsIncludes d0 "Mitigation" then
      trimStr ⟨(takeUntilLookahead (fun m => ("Mitigation".data).isPrefixOf m) d0.data).1⟩
    else d0
  truncateDescriptionV1 d1

/-! ## The STRIDE response parser (`parseStrideThreats`, refactored generator)

Hand-compilation of the regexes of `parseStrideThreats`.  The doc
comment of each function names the concrete pattern it implements and records how the
backtracking of the JavaScript engine resolves for that pattern (so that every
function is deterministic). -/

/-- CRLF → LF normalization: `aiResponse.replace` of every CRLF pair by LF. -/
def normalizeNewlines : List Char → List Char
  | [] => []
  | '\r' :: '\n' :: t => '\n' :: normalizeNewlines t
  | c :: t => c :: normalizeNewlines t

/-- The tail `\s*(?:\n|:)` of the heading pattern.  `\s*` is greedy and `\s`
includes `\n`, so the engine first consumes the maximal whitespace run `W` and
then backtracks: the separator is the character right after `W` when that
character is `:`, else the last `\n` inside `W`.  Returns the text after the
consumed separator. -/
def matchWsSep (m : List Char) : Option (List Char) :=
  let w := (m.takeWhile isJsSpace).length
  match m.drop w with
  | ':' :: r => some r
  | _ =>
    match (m.take w).reverse.findIdx? (· = '\n') with
    | some j => some (m.drop (w - j))
    | none => none

/-- The tail `(?:\*\*)?\s*(?:\n|:)` of the heading pattern: the optional
closing `**` is consumed when present (preferred branch), falling back to
leaving it unconsumed. -/
def matchStarWsSep (m : List Char) : Option (List Char) :=
  match m with
  | '*' :: '*' :: rest =>
    match matchWsSep rest with
    | some r => some r
    | none => matchWsSep m
  | _ => matchWsSep m

/-- The heading part `\s*([^\n*#]+?)(?:\*\*)?\s*(?:\n|:)` of `categoryRegex`,
applied right after the `#+` / `**` heading marker.  The leading `\s*` is
greedy (longest whitespace prefix first), the capture `[^\n*#]+?` is lazy
(shortest non-empty run first).  Returns the capture (group 1, untrimmed) and
the text after the separator. -/
def matchHeadingAfterMarker (l : List Char) : Option (List Char × List Char) :=
  let maxW := (l.takeWhile isJsSpace).length
  (List.range (maxW + 1)).reverse.findSome? fun w =>
    let afterW := l.drop w
    let maxG := (afterW.takeWhile fun c => !(c = '\n' || c = '*' || c = '#')).length
    (List.range maxG).findSome? fun g =>
      (matchStarWsSep (afterW.drop (g + 1))).map fun rest =>
        (afterW.take (g + 1), rest)

/-- The lookahead `(?=\n(?:#+|\*\*)\s|$)` ending group 2 of `categoryRegex`
(the `$` alternative is handled by the caller via `takeUntilLookahead`):
a newline followed by a `#` run or `**`, followed by one whitespace character.
`#+` is greedy; shorter `#` runs cannot satisfy the trailing `\s`, so only the
maximal run is relevant. -/
def categoryEndLookahead (m : List Char) : Bool :=
  match m with
  | '\n' :: r =>
    (match r with
     | '#' :: _ =>
       (match r.drop (r.takeWhile (· = '#')).length with
        | c :: _ => isJsSpace c
        | [] => false)
     | '*' :: '*' :: c :: _ => isJsSpace c
     | _ => false)
  | _ => false

/-- One attempt of the full `categoryRegex`
`(?:^|\n)(?:#+|\*\*)\s*([^\n*#]+?)(?:\*\*)?\s*(?:\n|:)([\s\S]*?)(?=\n(?:#+|\*\*)\s|$)`
anchored at the current position.  `atStart` tells whether the position is
index 0 (where the `^` alternative applies, preferred over consuming a
newline; without the `m` flag `^` matches only there).  Returns
(group 1, group 2, rest-of-input after the match). -/
def matchCategoryAt (l : List Char) (atStart : Bool) :
    Option (List Char × List Char × List Char) :=
  let tryMarker : List Char → Option (List Char × List Char × List Char) := fun m =>
    let afterMarker? : Option (List Char) :=
      match m with
      | '#' :: _ => some (m.drop (m.takeWhile (· = '#')).length)
      | '*' :: '*' :: rest => some rest
      | _ => none
    afterMarker?.bind fun am =>
      (matchHeadingAfterMarker am).map fun (cap, rest) =>
        let (content, remaining) := takeUntilLookahead categoryEndLookahead rest
        (cap, content, remaining)
  if atStart then
    match tryMarker l with
    | some r => some r
    | none =>
      match l with
      | '\n' :: r => tryMarker r
      | _ => none
  else
    match l with
    | '\n' :: r => tryMarker r
    | _ => none

/-- Leftmost-match search for `categoryRegex` from the current position
(`RegExp.prototype.exec` advances position by position until the whole
pattern matches). -/
def findCategoryMatch : List Char → Bool → Option (List Char × List Char × List Char)
  | l, atStart =>
    match matchCategoryAt l atStart with
    | some r => some r
    | none =>
      match l with
      | [] => none
      | _ :: t => findCategoryMatch t false

/-- The `while ((match = categoryRegex.exec(...)) !== null)` loop: successive
non-overlapping leftmost matches.  Each match ends right before the newline
that precedes the next heading (the final lookahead consumes nothing), so the
search resumes there.  Every match consumes at least the heading marker and
separator, so the remaining text shrinks strictly; `fuel` (called with
`length + 1`) therefore never runs out. -/
def categoryMatches (fuel : Nat) (l : List Char) (atStart : Bool) :
    List (List Char × List Char) :=
  match fuel with
  | 0 => []
  | fuel + 1 =>
    match findCategoryMatch l atStart with
    | none => []
    | some (h, c, rest) => (h, c) :: categoryMatches fuel rest false

/-- Category matching of a heading (`parseStrideThreats` inner loop): the
first STRIDE category, in the fixed enumeration order, whose name occurs
case-insensitively in the heading — with the special case that a heading
containing `information` matches `Information Disclosure`. -/
def headingMatchesCategory (categoryName cat : String) : Bool :=
  jsIncludes (toLowerStr categoryName) (toLowerStr cat) ||
    (cat == "Information Disclosure" &&
      jsIncludes (toLowerStr categoryName) "information")

/-- The `for (const cat of threatCategories) { if … { strideCategory = cat; break; } }`
loop of `parseStrideThreats`. -/
def findStrideCategory (categoryName : String) : Option String :=
  strideCategories.find? (headingMatchesCategory categoryName)

/-- The sub-block split lookahead
`(?=\n\s*[-\*\d]+\.?\s*(?:Threat|Description):)` (flags `gi`): newline,
whitespace, a non-empty bullet run, an optional dot, whitespace, then the
label `Threat:` or `Description:` case-insensitively. -/
def threatSplitLookahead (m : List Char) : Bool :=
  match m with
  | '\n' :: r =>
    let r2 := r.dropWhile isJsSpace
    let bullets := r2.takeWhile isBullet
    if bullets.isEmpty then false
    else
      let r3 := r2.drop bullets.length
      let r4 := match r3 with
        | '.' :: t => t
        | _ => r3
      let r5 := r4.dropWhile isJsSpace
      ciStartsWith r5 "threat:".data || ciStartsWith r5 "description:".data
  | _ => false

/-- The permissive fallback split lookahead `(?=\n\s*[-\*\d]+\.?\s*)`:
a newline followed (after whitespace) by at least one bullet character
(`\.?\s*` always succeeds). -/
def bulletSplitLookahead (m : List Char) : Bool :=
  match m with
  | '\n' :: r => !((r.dropWhile isJsSpace).takeWhile isBullet).isEmpty
  | _ => false

/-- Sub-block determination of `parseStrideThreats`: split at the labeled
positions; when that yields a single block and the content is longer than 50
characters, retry with the permissive bullet split and use it when it yields
more than one block. -/
def blocksToProcess (content : List Char) : List (List Char) :=
  let threatBlocks := splitAtLookahead threatSplitLookahead content
  if threatBlocks.length ≤ 1 && content.length > 50 then
    let altBlocks := splitAtLookahead bulletSplitLookahead content
    if altBlocks.length > 1 then altBlocks else threatBlocks
  else threatBlocks

/-- The description-terminating lookahead
`(?=\n\s*Risk:|\n\s*Mitigation:|\n##|$)` (flag `i`; `$` handled by the
caller): newline then (after whitespace) `Risk:` or `Mitigation:`
case-insensitively, or a newline immediately followed by `##`. -/
def descStopLookahead (m : List Char) : Bool :=
  match m with
  | '\n' :: r =>
    let r2 := r.dropWhile isJsSpace
    ciStartsWith r2 "risk:".data || ciStartsWith r2 "mitigation:".data ||
      (match r with
       | '#' :: '#' :: _ => true
       | _ => false)
  | _ => false

/-- One attempt, at a fixed position, of the description-label regex
`` `${label}\s*([\s\S]*?)(?=\n\s*Risk:|\n\s*Mitigation:|\n##|$)` `` (flag
`i`).  After the label, `\s*` is greedy; the lazy capture then runs to the
first stop-lookahead position, or to the end (`$`), so the attempt always
succeeds once the label matched. -/
def matchLabelAt (label : List Char) (m : List Char) : Option (List Char) :=
  if ciStartsWith m label then
    some (takeUntilLookahead descStopLookahead
      ((m.drop label.length).dropWhile isJsSpace)).1
  else none

/-- The label loop of `parseStrideThreats`: try `Threat:`, `Description:`,
`Issue:` in order; the first whose (leftmost) match has a non-empty trimmed
capture provides the description. -/
def descriptionFromLabels (block : List Char) : List Char :=
  go ["Threat:".data, "Description:".data, "Issue:".data]
where
  go : List (List Char) → List Char
  | [] => []
  | label :: rest =>
    match scanFirst (matchLabelAt label) block with
    | some cap => if (trimL cap).isEmpty then go rest else trimL cap
    | none => go rest

/-- The bare-list-marker test `/^[-\*\d]+\.?\s*$/` applied to the first line:
the whole line is a non-empty bullet run, an optional dot, and trailing
whitespace. -/
def isBareMarkerLine (l : List Char) : Bool :=
  let bullets := l.takeWhile isBullet
  if bullets.isEmpty then false
  else
    let r := l.drop bullets.length
    let r2 := match r with
      | '.' :: t => t
      | _ => r
    r2.all isJsSpace

/-- Description extraction for one sub-block (labels first, then the
first-line fallback guarded by `firstLine.length > 10` and the bare-marker
test). -/
def extractDescription (block : List Char) : List Char :=
  let labeled := descriptionFromLabels block
  if !labeled.isEmpty then labeled
  else if (trimL block).isEmpty then []
  else
    let firstLine := trimL (block.takeWhile (· ≠ '\n'))
    if !firstLine.isEmpty && firstLine.length > 10 && !isBareMarkerLine firstLine
    then firstLine
    else []

/-- One attempt, at a fixed position, of
`riskRegex = /Risk:\s*(Low|Medium|High|Critical)/i`: the label `Risk:`
case-insensitively, greedy whitespace, then one of the four level words
case-insensitively (their first letters differ, so alternation order is
immaterial).  The capture is the *original-case* text of the matched word —
the `i` flag does not canonicalize what group 1 captures. -/
def matchRiskAt (m : List Char) : Option (List Char) :=
  if ciStartsWith m "risk:".data then
    let r := (m.drop 5).dropWhile isJsSpace
    if ciStartsWith r "low".data then some (r.take 3)
    else if ciStartsWith r "medium".data then some (r.take 6)
    else if ciStartsWith r "high".data then some (r.take 4)
    else if ciStartsWith r "critical".data then some (r.take 8)
    else none
  else none

/-- The mitigation-terminating lookahead
`(?=\n\s*[-\*\d]+\.?\s*Threat:|\n##\s|$)` (flag `i`): newline, whitespace,
bullet run, optional dot, whitespace, then `Threat:`; or newline, `##`, one
whitespace character. -/
def mitStopLookahead (m : List Char) : Bool :=
  match m with
  | '\n' :: r =>
    (let r2 := r.dropWhile isJsSpace
     let bullets := r2.takeWhile isBullet
     if bullets.isEmpty then false
     else
       let r3 := r2.drop bullets.length
       let r4 := match r3 with
         | '.' :: t => t
         | _ => r3
       ciStartsWith (r4.dropWhile isJsSpace) "threat:".data) ||
    (match r with
     | '#' :: '#' :: c :: _ => isJsSpace c
     | _ => false)
  | _ => false

/-- One attempt, at a fixed position, of
`mitigationRegex = /Mitigation:\s*([\s\S]*?)(?=\n\s*[-\*\d]+\.?\s*Threat:|\n##\s|$)/i`. -/
def matchMitigationAt (m : List Char) : Option (List Char) :=
  if ciStartsWith m "mitigation:".data then
    some (takeUntilLookahead mitStopLookahead
      ((m.drop 11).dropWhile isJsSpace)).1
  else none

/-- Processing of one sub-block (`for (const block of blocksToProcess)` body):
skip blocks whose trimmed text is shorter than 10 characters, extract the
description, risk level (default `Medium`) and mitigation (default
`Mitigation strategy not specified.`), and emit one threat when a
description was found and is longer than 5 characters. -/
def processBlock (cat : String) (block : List Char) : List Threat :=
  if (trimL block).length < 10 then []
  else
    let description := extractDescription block
    if description.isEmpty then []
    else
      let riskLevel : List Char :=
        match scanFirst matchRiskAt block with
        | some w => w
        | none => "Medium".data
      let mitigation : List Char :=
        match scanFirst matchMitigationAt block with
        | some m => trimL m
        | none => "Mitigation strategy not specified.".data
      if description.length > 5 then
        [{ category := cat, description := ⟨description⟩,
           riskLevel := ⟨riskLevel⟩, mitigationStrategy := ⟨mitigation⟩ }]
      else []

/-- All threats of one matched category block. -/
def processCategoryContent (cat : String) (content : List Char) : List Threat :=
  (blocksToProcess content).flatMap (processBlock cat)

/-- Handling of one heading/content pair inside the `while` loop of
`parseStrideThreats`: when the trimmed heading names a STRIDE category the
threats of the (trimmed) content are appended; otherwise a warning naming the
unmatched heading is logged. -/
def parseStep (acc : List Threat × List String) (hc : List Char × List Char) :
    List Threat × List String :=
  let categoryName : String := ⟨trimL hc.1⟩
  let categoryContent := trimL hc.2
  match findStrideCategory categoryName with
  | some cat => (acc.1 ++ processCategoryContent cat categoryContent, acc.2)
  | none =>
    (acc.1, acc.2 ++ ["⚠️ Found section heading \"" ++ categoryName ++
      "\" in AI response that does not match a known STRIDE category."])

/-- The message text of the final `console.warn` diagnostic (its two
arguments joined; the second argument is `aiResponse.substring(0, 300) + "..."`). -/
def parseFailDiagText : String :=
  "⚠️ AI response received, but failed to parse any structured STRIDE threats. The AI might not have followed the requested format. Raw response snippet: "

/-- The final diagnostic, carrying the first 300 characters of the response. -/
def parseFailDiag (aiResponse : String) : String :=
  parseFailDiagText ++ (takeStr aiResponse 300 ++ "...")

/-- `parseStrideThreats`, with its `console.warn` diagnostics collected into a
message list: normalize line endings, find all heading blocks, keep the blocks
whose (trimmed) heading names a STRIDE category, parse each such block into
threats; log a warning for each unmatched heading and — when a non-empty
response produced no threats at all — a final diagnostic carrying the first
300 characters of the response. -/
def parseStrideThreatsWithLog (aiResponse : String) : List Threat × List String :=
  let normalized := normalizeNewlines aiResponse.data
  let pairs := categoryMatches (normalized.length + 1) normalized true
  let res := pairs.foldl parseStep ([], [])
  if res.1.isEmpty && !(trimStr aiResponse).isEmpty then
    (res.1, res.2 ++ [parseFailDiag aiResponse])
  else res

/-- `parseStrideThreats`: the returned threat list. -/
def parseStrideThreats (aiResponse : String) : List Threat :=
  (parseStrideThreatsWithLog aiResponse).1

/-! ## Per-asset model construction and the final collection (refactored
generator) -/

/-- `generateEndpointThreatModel` after the AI call: a null result (dropped
later) when the response is empty or whitespace, otherwise a ThreatModel
carrying whatever `parseStrideThreats` produced — *including an empty threat
list*. -/
def endpointModelOfResponse (assetName : String) (aiResponse : String) :
    Option ThreatModel :=
  if (trimStr aiResponse).isEmpty then none
  else some { assetName := assetName, assetType := "endpoint",
              threats := parseStrideThreats aiResponse }

/-- `generateDataThreatModel` after the AI call (same null/keep logic). -/
def dataModelOfResponse (entityName : String) (aiResponse : String) :
    Option ThreatModel :=
  if (trimStr aiResponse).isEmpty then none
  else some { assetName := entityName, assetType := "data",
              threats := parseStrideThreats aiResponse }

/-- The endpoint phase of `generateAIThreatModels`: results arrive in
discovery order (`Promise.all` preserves order) and the `null` results are
filtered out (`.filter((tm): tm is ThreatModel => tm !== null)`). -/
def buildEndpointCollection (responses : List (String × String)) :
    List ThreatModel :=
  responses.filterMap fun (name, resp) => endpointModelOfResponse name resp

/-- `generateGlobalThreatAnalysis` of the refactored generator: skip on an
empty response; skip (source comment: do not add an empty model) when the parse yields no
threats; otherwise append one `process`-type model. -/
def globalAppendV2 (tms : List ThreatModel) (aiResponse : String) :
    List ThreatModel :=
  if (trimStr aiResponse).isEmpty then tms
  else
    let threats := parseStrideThreats aiResponse
    if threats.isEmpty then tms
    else tms ++ [{ assetName := "Global Application Architecture",
                   assetType := "process", threats := threats }]

/-- The collection a refactored-generator run accumulates before file
writing, as a function of the AI responses: the endpoint models (in discovery
order) followed by the optional global model.  (The data-entity phase has the
same keep/drop logic as the endpoint phase and is subsumed by passing its
responses through `dataModelOfResponse`; it is omitted here because no claim
distinguishes the two.) -/
def runCollectionV2 (endpointResponses : List (String × String))
    (globalResponse : Option String) : List ThreatModel :=
  let base := buildEndpointCollection endpointResponses
  match globalResponse with
  | some g => globalAppendV2 base g
  | none => base

/-- The file-writing decision of `generateThreatModel` (refactored
generator): `if (this.threatModels.length > 0) { … write files … } else
{ … "Skipping file writing." }`.  A run that reaches this point has not
failed fatally. -/
def reportWrittenV2 (tms : List ThreatModel) : Bool :=
  !tms.isEmpty

/-! ## Statistics (report generators) -/

/-- Total threat count:
`this.threatModels.reduce((acc, tm) => acc + tm.threats.length, 0)`. -/
def totalThreats (tms : List ThreatModel) : Nat :=
  (tms.map fun tm => tm.threats.length).sum

/-- All threats of the collection in traversal order (`flatMap`). -/
def allThreats (tms : List ThreatModel) : List Threat :=
  tms.flatMap fun tm => tm.threats

/-- Number of threats of the collection whose `riskLevel` field equals the
given string exactly (`.filter((t) => t.riskLevel === "Critical")` etc.). -/
def countRisk (lv : String) (tms : List ThreatModel) : Nat :=
  ((allThreats tms).filter fun t => t.riskLevel == lv).length

/-- Percentage computation of the refactored generator
(`totalThreats > 0 ? ((count / totalThreats) * 100).toFixed(1) : "0.0"`):
the numeric value before display rounding, with the explicit zero guard. -/
def pctV2 (count total : Nat) : ℚ :=
  if 0 < total then ((count : ℚ) / (total : ℚ)) * 100 else 0

/-- Percentage computation of the original generator
(`((criticalThreats.length / totalThreats) * 100).toFixed(1)` — *no* zero
guard): JavaScript division by zero yields `NaN` (count 0) or `Infinity`,
neither of which is a numeric percentage; modelled as `none`. -/
def pctV1 (count total : Nat) : Option ℚ :=
  if total = 0 then none else some (((count : ℚ) / (total : ℚ)) * 100)

/-- The four risk percentages of the refactored report, in the order
Critical, High, Medium, Low. -/
def riskPercentagesV2 (tms : List ThreatModel) : ℚ × ℚ × ℚ × ℚ :=
  let t := totalThreats tms
  (pctV2 (countRisk "Critical" tms) t, pctV2 (countRisk "High" tms) t,
   pctV2 (countRisk "Medium" tms) t, pctV2 (countRisk "Low" tms) t)

/-- The four risk percentages of the original report. -/
def riskPercentagesV1 (tms : List ThreatModel) :
    Option ℚ × Option ℚ × Option ℚ × Option ℚ :=
  let t := totalThreats tms
  (pctV1 (countRisk "Critical" tms) t, pctV1 (countRisk "High" tms) t,
   pctV1 (countRisk "Medium" tms) t, pctV1 (countRisk "Low" tms) t)

/-- The order-independent risk statistics of a collection: total plus the
four per-level counts. -/
def riskStatistics (tms : List ThreatModel) : Nat × Nat × Nat × Nat × Nat :=
  (totalThreats tms, countRisk "Critical" tms, countRisk "High" tms,
   countRisk "Medium" tms, countRisk "Low" tms)

/-! ## Vulnerability rankings -/

/-- Number of `Critical` threats of one model. -/
def criticalCount (tm : ThreatModel) : Nat :=
  (tm.threats.filter fun t => t.riskLevel == "Critical").length

/-- Number of `High` threats of one model. -/
def highCount (tm : ThreatModel) : Nat :=
  (tm.threats.filter fun t => t.riskLevel == "High").length

/-- One entry of the endpoint ranking of the original generator
(`{ name: model.assetName, score, threatModel: model }`). -/
structure ScoredEndpoint where
  name : String
  score : Nat
  threatModel : ThreatModel
deriving DecidableEq

/-- The `endpointVulnerabilityScores` ranking of the original generator
(its `generateMarkdownReport`):

```
endpointModels
  .map((model) => { …; const score = criticalCount * 3 + highCount; … })
  .sort((a, b) => b.score - a.score);
```
-/
def endpointVulnerabilityScoresV1 (tms : List ThreatModel) :
    List ScoredEndpoint :=
  sortDescBy (fun e => (e.score : Int))
    ((tms.filter fun tm => tm.assetType == "endpoint").map fun m =>
      { name := m.assetName,
        score := criticalCount m * 3 + highCount m,
        threatModel := m })

/-- One entry of the endpoint ranking of the refactored generator
(`{ ...model, criticalCount, highCount }`). -/
structure RankedModel where
  model : ThreatModel
  criticalCount : Nat
  highCount : Nat
deriving DecidableEq

/-- The `endpointsWithHighCritical` ranking of the refactored generator
(its `generateMarkdownReport`):

```
endpointModels
  .map(model => ({ ...model, criticalCount: …, highCount: … }))
  .filter(model => model.criticalCount > 0 || model.highCount > 0)
  .sort((a, b) => (b.criticalCount * 2 + b.highCount) - (a.criticalCount * 2 + a.highCount));
```
-/
def endpointsWithHighCriticalV2 (tms : List ThreatModel) : List RankedModel :=
  sortDescBy (fun r => (r.criticalCount * 2 + r.highCount : Int))
    (((tms.filter fun tm => tm.assetType == "endpoint").map fun m =>
        { model := m, criticalCount := criticalCount m, highCount := highCount m
          : RankedModel }).filter
      fun r => decide (0 < r.criticalCount) || decide (0 < r.highCount))

/-- The per-asset vulnerability score the specification describes:
3 × criticalCount + 1 × highCount. -/
def specScore (tm : ThreatModel) : Nat :=
  3 * criticalCount tm + highCount tm

/-! ## The in-place sort of the global model done by the report -/

/-- `riskOrder = { Critical: 4, High: 3, Medium: 2, Low: 1 }` with the
`|| 0` fallback for any other string. -/
def riskOrderNum (lv : String) : Nat :=
  if lv == "Critical" then 4
  else if lv == "High" then 3
  else if lv == "Medium" then 2
  else if lv == "Low" then 1
  else 0

/-- The global-recommendations section of the refactored
`generateMarkdownReport` calls `globalModel.threats.sort(…)` on the model
returned by `this.threatModels.find(tm => tm.assetType === "process")`.
`Array.prototype.sort` sorts *in place*: the threats list of the first
`process`-type model of the collection is reordered (descending risk order)
as a side effect of rendering the report.  This function is the collection
after that side effect. -/
def sortGlobalThreats : List ThreatModel → List ThreatModel
  | [] => []
  | tm :: rest =>
    if tm.assetType == "process" then
      (if tm.threats.isEmpty then tm
       else { tm with
              threats := sortDescBy (fun t => (riskOrderNum t.riskLevel : Int))
                tm.threats }) :: rest
    else tm :: sortGlobalThreats rest

/-! ## The markdown report content (refactored generator)

A faithful transcription of the string built by the refactored
`generateMarkdownReport`.  The generation date and the model identifier are
runtime inputs and appear as parameters.  `toFixed(1)` display rounding is
modelled by decimal rounding of the exact rational to one digit. -/

/-- Decimal rendering of `q` rounded to one fractional digit (the display
value of `toFixed(1)` for the non-negative percentages that occur here). -/
def fixed1 (q : ℚ) : String :=
  let m : Int := Int.floor (q * 10 + 1 / 2)
  toString (m / 10) ++ "." ++ toString (m % 10).natAbs

/-- The per-category occurrence counts in first-encounter order — the
insertion-order contract of the JavaScript `Map` built by
`threatCategoryCount.set(category, currentCount + 1)`. -/
def bumpCategory (acc : List (String × Nat)) (cat : String) :
    List (String × Nat) :=
  match acc with
  | [] => [(cat, 1)]
  | (c, n) :: t => if c == cat then (c, n + 1) :: t else (c, n) :: bumpCategory t cat

/-- `threatCategoryCount` as an insertion-ordered association list. -/
def categoryCounts (tms : List ThreatModel) : List (String × Nat) :=
  (allThreats tms).foldl (fun acc t => bumpCategory acc t.category) []

/-- `sortedCategories`: descending by count (stable, so ties keep
first-encounter order), top 5. -/
def sortedCategories (tms : List ThreatModel) : List (String × Nat) :=
  (sortDescBy (fun p => (p.2 : Int)) (categoryCounts tms)).take 5

/-- One rendered line block of the Critical-vulnerabilities section. -/
def criticalEntryMd (idx : Nat) (asset assetType : String) (t : Threat) : String :=
  "### " ++ toString (idx + 1) ++ ". " ++ t.category ++ " in " ++ asset ++
    " (" ++ assetType ++ ")\n" ++
  "**Risk**: Critical\n" ++
  "**Description**: " ++ t.description ++ "\n" ++
  "**Mitigation**: " ++ t.mitigationStrategy ++ "\n\n"

/-- `(asset, assetType, threat)` rows of `allThreatDetails` restricted to one
risk level. -/
def threatDetails (lv : String) (tms : List ThreatModel) :
    List (String × String × Threat) :=
  (tms.flatMap fun tm =>
    tm.threats.map fun t => (tm.assetName, tm.assetType, t)).filter
    fun row => row.2.2.riskLevel == lv

/-- Concatenation of the rendered markdown for a list of items. -/
def concatMap (f : α → String) (l : List α) : String :=
  (l.map f).foldl (· ++ ·) ""

/-- Markdown of the high-risk section: threats grouped by category in
first-encounter order (the iteration order of the object literal built by
`reduce`). -/
def highRiskSectionMd (tms : List ThreatModel) : String :=
  let highs := threatDetails "High" tms
  let cats := (highs.map fun row => row.2.2.category).foldl
    (fun acc c => if acc.contains c then acc else acc ++ [c]) []
  concatMap (fun c =>
    "### " ++ c ++ "\n" ++
    String.join (((highs.filter fun row => row.2.2.category == c).enum).map
      fun irow =>
        toString (irow.1 + 1) ++ ". **Asset**: " ++ irow.2.1 ++ " (" ++
          irow.2.2.1 ++ ")\n" ++
        "   **Description**: " ++ irow.2.2.2.description ++ "\n" ++
        "   **Mitigation**: " ++ irow.2.2.2.mitigationStrategy ++ "\n\n")) cats

/-- Markdown of one highlighted endpoint/entity of the ranking sections. -/
def rankedModelMd (r : RankedModel) : String :=
  "#### " ++ r.model.assetName ++ "\n" ++
  "(" ++ toString r.criticalCount ++ " Critical, " ++ toString r.highCount ++
    " High Risks)\n\n" ++
  String.join ((r.model.threats.filter fun t =>
      t.riskLevel == "Critical" || t.riskLevel == "High").map fun t =>
    "- **[" ++ t.riskLevel ++ "] " ++ t.category ++ "**: " ++ t.description ++
      "\n" ++ "  - **Mitigation**: " ++ t.mitigationStrategy ++ "\n") ++ "\n"

/-- The fixed generic-recommendations block emitted when no `process`-type
model with threats exists. -/
def genericRecommendationsMd : String :=
  "## General Security Recommendations\n\n" ++
  "- **Authentication & Authorization**: Ensure robust mechanisms (e.g., JWT with refresh tokens, RBAC guards) are consistently applied.\n" ++
  "- **Input Validation**: Use global ValidationPipes and specific DTOs with validation decorators for all inputs.\n" ++
  "- **Security Headers**: Employ Helmet.js or similar middleware for essential security headers (CSP, HSTS, X-Frame-Options, etc.).\n" ++
  "- **Rate Limiting**: Implement rate limiting (e.g., using @nestjs/throttler) to prevent abuse and DoS.\n" ++
  "- **Error Handling**: Avoid leaking sensitive information or stack traces in error responses. Use exception filters.\n" ++
  "- **Dependency Management**: Regularly scan dependencies for known vulnerabilities (e.g., using npm audit or Snyk).\n" ++
  "- **Secrets Management**: Use environment variables and a configuration service (@nestjs/config) - never hardcode secrets.\n" ++
  "- **Logging**: Implement structured logging that captures relevant security events (auth success/failure, significant errors, access control decisions).\n\n"

/-- The two header lines of the report. -/
def reportHeader (dateStr model : String) : String :=
  "# NestJS Application STRIDE Threat Model\n\n" ++
  "*Generated on " ++ dateStr ++ " using Google AI (" ++ model ++ ")*\n\n"

/-- The zero-threat early-exit body of the refactored
`generateMarkdownReport` (everything appended after the header before the
early `return`). -/
def reportZeroNotice : String :=
  "## Executive Summary\n\n" ++
  "No threats were identified or parsed from the analysis. This could be due to:\n" ++
  "- The application structure having no analyzable components.\n" ++
  "- Errors during the AI analysis phase.\n" ++
  "- The AI not responding in the expected format.\n\n" ++
  "Please review the console logs for more details.\n"

/-- The markdown narrative of the refactored `generateMarkdownReport`, as a
pure function of the collection (plus the generation date text and model
identifier, which are runtime inputs).  When the total threat count is zero
the function short-circuits to the explicit empty-analysis notice; otherwise
it renders the statistics sections. -/
def reportContentV2 (dateStr model : String) (tms : List ThreatModel) : String :=
  let header := reportHeader dateStr model
  if totalThreats tms = 0 then
    header ++ reportZeroNotice
  else
    let total := totalThreats tms
    let criticals := threatDetails "Critical" tms
    let highs := threatDetails "High" tms
    let mediums := threatDetails "Medium" tms
    let lows := threatDetails "Low" tms
    let endpointCount := (tms.filter fun tm => tm.assetType == "endpoint").length
    let dataCount := (tms.filter fun tm => tm.assetType == "data").length
    let processCount := (tms.filter fun tm => tm.assetType == "process").length
    let topCats := sortedCategories tms
    let ranked := endpointsWithHighCriticalV2 tms
    let entityModels := tms.filter fun tm => tm.assetType == "data"
    let globalModel? := tms.find? fun tm => tm.assetType == "process"
    header ++
    "## Executive Summary\n\n" ++
    "This report presents a STRIDE threat model analysis of the NestJS application, generated with the assistance of Google AI. " ++
    "The analysis identified **" ++ toString total ++
      " potential security threats** across analyzed endpoints, data entities, and the application architecture.\n\n" ++
    "### Risk Level Distribution\n" ++
    "- **Critical**: " ++ toString criticals.length ++ " threats (" ++
      fixed1 (pctV2 criticals.length total) ++ "%)\n" ++
    "- **High**: " ++ toString highs.length ++ " threats (" ++
      fixed1 (pctV2 highs.length total) ++ "%)\n" ++
    "- **Medium**: " ++ toString mediums.length ++ " threats (" ++
      fixed1 (pctV2 mediums.length total) ++ "%)\n" ++
    "- **Low**: " ++ toString lows.length ++ " threats (" ++
      fixed1 (pctV2 lows.length total) ++ "%)\n\n" ++
    "### Asset Analysis Summary\n" ++
    "- **Total Assets Analyzed**: " ++ toString tms.length ++ "\n" ++
    (if 0 < endpointCount then
      "- **Endpoints Analyzed**: " ++ toString endpointCount ++ "\n" else "") ++
    (if 0 < dataCount then
      "- **Data Entities Analyzed**: " ++ toString dataCount ++ "\n" else "") ++
    (if 0 < processCount then
      "- **Process/Architecture Elements Analyzed**: " ++ toString processCount ++ "\n"
     else "") ++ "\n" ++
    (if 0 < topCats.length then
      "### Top " ++ toString topCats.length ++ " Threat Categories by Frequency\n" ++
      String.join ((topCats.enum).map fun ic =>
        toString (ic.1 + 1) ++ ". **" ++ ic.2.1 ++ "**: " ++ toString ic.2.2 ++
          " threats identified\n") ++ "\n"
     else "") ++
    (if 0 < criticals.length then
      "## Critical Vulnerabilities (Immediate Attention Required)\n\n" ++
      String.join ((criticals.enum).map fun irow =>
        criticalEntryMd irow.1 irow.2.1 irow.2.2.1 irow.2.2.2)
     else "") ++
    (if 0 < highs.length then
      "## High-Risk Vulnerabilities\n\n" ++ highRiskSectionMd tms
     else "") ++
    (if 0 < (tms.filter fun tm => tm.assetType == "endpoint").length then
      "## API Endpoint Security Highlights\n\n" ++
      (if 0 < ranked.length then
        "### Endpoints with Critical or High Risks\n\n" ++
        concatMap rankedModelMd (ranked.take 10) ++
        (if 10 < ranked.length then
          "*... and " ++ toString (ranked.length - 10) ++
            " more endpoints with critical/high risks.*\n\n"
         else "")
       else
        "No critical or high-risk threats were identified specifically for the analyzed endpoints.\n\n")
     else "") ++
    (if 0 < entityModels.length then
      "## Data Entity Security Highlights\n\n" ++
      (let rankedEntities := sortDescBy
        (fun r : RankedModel => (r.criticalCount * 2 + r.highCount : Int))
        ((entityModels.map fun m =>
          { model := m, criticalCount := criticalCount m, highCount := highCount m
            : RankedModel }).filter fun r =>
              decide (0 < r.criticalCount) || decide (0 < r.highCount))
       if 0 < rankedEntities.length then
        "### Entities with Critical or High Risks\n\n" ++
        concatMap rankedModelMd rankedEntities
       else
        "No critical or high-risk threats were identified specifically for the analyzed data entities.\n\n")
     else "") ++
    (match globalModel? with
     | some gm =>
       if 0 < gm.threats.length then
         "## Global & Architectural Recommendations\n\n" ++
         String.join ((sortDescBy (fun t => (riskOrderNum t.riskLevel : Int))
            gm.threats).map fun t =>
           "### " ++ t.category ++ " - [" ++ t.riskLevel ++ "]\n" ++
           "**Threat**: " ++ t.description ++ "\n" ++
           "**Mitigation**: " ++ t.mitigationStrategy ++ "\n\n")
       else genericRecommendationsMd
     | none => genericRecommendationsMd) ++
    "## Recommended Prioritization\n\n" ++
    "Focus remediation efforts based on risk level:\n\n" ++
    (if 0 < criticals.length then
      "### 1. Critical Risks (Address Immediately)\n" ++
      "Prioritize fixing all " ++ toString criticals.length ++
        " critical vulnerabilities identified. These represent the highest potential impact.\n\n" ++
      String.join ((criticals.take 3).map fun row =>
        "- Example: " ++ row.2.2.category ++ " in " ++ row.1 ++ " - " ++
          row.2.2.mitigationStrategy ++ "\n") ++
      (if 3 < criticals.length then
        "- ... and " ++ toString (criticals.length - 3) ++ " more.\n" else "") ++
      "\n"
     else "") ++
    (if 0 < highs.length then
      "### 2. High Risks (Address Next)\n" ++
      "Address the " ++ toString highs.length ++
        " high-risk vulnerabilities following the critical ones. These often involve significant security gaps.\n\n" ++
      String.join ((highs.take 3).map fun row =>
        "- Example: " ++ row.2.2.category ++ " in " ++ row.1 ++ " - " ++
          row.2.2.mitigationStrategy ++ "\n") ++
      (if 3 < highs.length then
        "- ... and " ++ toString (highs.length - 3) ++ " more.\n" else "") ++
      "\n"
     else "") ++
    (if 0 < mediums.length then
      "### 3. Medium Risks (Address Systematically)\n" ++
      "Plan to address the " ++ toString mediums.length ++
        " medium-risk vulnerabilities as part of regular development cycles. These often relate to defense-in-depth.\n\n"
     else "") ++
    (if 0 < lows.length then
      "### 4. Low Risks (Address Opportunistically)\n" ++
      "Address the " ++ toString lows.length ++
        " low-risk vulnerabilities when time permits or during related feature work. These are typically minor improvements or hardening measures.\n\n"
     else "") ++
    "## Conclusion\n\n" ++
    "This AI-assisted STRIDE threat model provides a valuable baseline for understanding potential security risks in the application. It identified " ++
      toString total ++ " threats, highlighting " ++ toString criticals.length ++
      " critical and " ++ toString highs.length ++
      " high-risk issues requiring prompt attention. " ++
    "Implementing the recommended mitigations, prioritized by risk level, will significantly enhance the security posture of the application. Remember that automated analysis is a starting point; manual review and deeper investigation by the development team are crucial for comprehensive security.\n\n" ++
    "---\n\n" ++
    "*Report generated automatically using NestJS STRIDE Threat Modeling Tool*\n" ++
    "*AI Analysis powered by Google Generative AI (" ++ model ++ ")*"

/-! ## Entity name resolution (refactored generator)

`extractEntityDefinitions`:

```
const entityNameFromFile = fileName.replace(".entity.ts", ""); // Initial guess
const classNameMatch = content.match(/export\s+class\s+([\w]+)/);
const entityName = classNameMatch ? classNameMatch[1] : entityNameFromFile;
```
-/

/-- JavaScript `\w`: ASCII letters, digits, underscore. -/
def isWordChar (c : Char) : Bool := c.isAlphanum || c = '_'

/-- One attempt of `/export\s+class\s+([\w]+)/` (case-sensitive) at a fixed
position: the literal `export`, at least one whitespace character (greedy,
deterministic because `class` starts with a non-whitespace character), the
literal `class`, whitespace again, then the greedy capture of a non-empty
word-character run. -/
def tryExportClassAt (m : List Char) : Option (List Char) :=
  if "export".data.isPrefixOf m then
    let r1 := m.drop 6
    let w1 := (r1.takeWhile isJsSpace).length
    if w1 = 0 then none
    else
      let r2 := r1.drop w1
      if "class".data.isPrefixOf r2 then
        let r3 := r2.drop 5
        let w2 := (r3.takeWhile isJsSpace).length
        if w2 = 0 then none
        else
          let name := (r3.drop w2).takeWhile isWordChar
          if name.isEmpty then none else some name
      else none
  else none

/-- `content.match(/export\s+class\s+([\w]+)/)`: the capture of the leftmost
match, if any. -/
def firstExportClassName (content : String) : Option String :=
  (scanFirst tryExportClassAt content.data).map fun l => ⟨l⟩

/-- The entity name stored into `entityDefinitions`: the first declared
exported class name when one exists, else the file name with its first
`.entity.ts` occurrence removed. -/
def entityNameFor (content fileName : String) : String :=
  match firstExportClassName content with
  | some n => n
  | none => replaceFirst fileName ".entity.ts" ""

/-! ## Helper lemmas -/

/-- Characterization of `scanFirst`: a `some` result comes from the leftmost
matching position, a `none` result means no position matches. -/
theorem scanFirst_spec (f : List Char → Option β) (l : List Char) :
    (∀ b, scanFirst f l = some b →
      ∃ k, k ≤ l.length ∧ f (l.drop k) = some b ∧
        ∀ j < k, f (l.drop j) = none) ∧
    (scanFirst f l = none → ∀ k, f (l.drop k) = none) := by
  induction l with
  | nil =>
    constructor
    · intro b hb
      exact ⟨0, by simp, by simpa [scanFirst] using hb, by omega⟩
    · intro h k
      simpa [scanFirst] using h
  | cons c t ih =>
    constructor
    · intro b hb
      simp only [scanFirst] at hb
      rcases hf : f (c :: t) with _ | b0
      · rw [hf] at hb
        rcases ih.1 b hb with ⟨k, hk, hfk, hmin⟩
        refine ⟨k + 1, by simpa using Nat.succ_le_succ hk, by simpa using hfk, ?_⟩
        intro j hj
        match j with
        | 0 => simpa using hf
        | j + 1 => exact hmin j (by omega)
      · rw [hf] at hb
        exact ⟨0, by simp, by simpa [hf] using hb, by omega⟩
    · intro h k
      simp only [scanFirst] at h
      rcases hf : f (c :: t) with _ | b0
      · rw [hf] at h
        match k with
        | 0 => simpa using hf
        | k + 1 => simpa using ih.2 h k
      · rw [hf] at h
        exact absurd h (by simp)

/-- Characterization of `List.find?`: a found element satisfies the predicate
and everything before it in the list does not. -/
theorem find?_first_spec (p : α → Bool) (l : List α) (c : α)
    (h : l.find? p = some c) :
    p c = true ∧ ∃ pre suf, l = pre ++ c :: suf ∧ ∀ x ∈ pre, p x = false := by
  induction l with
  | nil => simp at h
  | cons a t ih =>
    by_cases hpa : p a = true
    · rw [List.find?_cons_of_pos _ hpa] at h
      cases h
      exact ⟨hpa, [], t, by simp, by simp⟩
    · rw [List.find?_cons_of_neg _ (by simpa using hpa)] at h
      rcases ih h with ⟨hc, pre, suf, heq, hpre⟩
      refine ⟨hc, a :: pre, suf, by simp [heq], ?_⟩
      intro x hx
      rcases List.mem_cons.mp hx with hx | hx
      · subst hx; simpa using hpa
      · exact hpre x hx

/-- Every threat emitted for a block carries the category of the enclosing
block. -/
theorem processBlock_category (cat : String) (b : List Char) :
    ∀ t ∈ processBlock cat b, t.category = cat := by
  intro t ht
  simp only [processBlock] at ht
  split at ht
  · simp at ht
  · split at ht
    · simp at ht
    · split at ht
      · simp only [List.mem_singleton] at ht
        subst ht
        rfl
      · simp at ht

/-- Every threat emitted for a category block carries that category. -/
theorem processCategoryContent_category (cat : String) (content : List Char) :
    ∀ t ∈ processCategoryContent cat content, t.category = cat := by
  intro t ht
  simp only [processCategoryContent, List.mem_flatMap] at ht
  rcases ht with ⟨b, _, hb⟩
  exact processBlock_category cat b t hb

/-- Every threat returned by the parser carries one of the six canonical
STRIDE categories. -/
theorem parseStrideThreats_categories (s : String) :
    ∀ t ∈ parseStrideThreats s, t.category ∈ strideCategories := by
  have main : ∀ (pairs : List (List Char × List Char))
      (init : List Threat × List String),
      (∀ t ∈ init.1, t.category ∈ strideCategories) →
      ∀ t ∈ (pairs.foldl parseStep init).1, t.category ∈ strideCategories := by
    intro pairs
    induction pairs with
    | nil => intro init h t ht; exact h t ht
    | cons hc rest ih =>
      intro init h t ht
      simp only [List.foldl_cons] at ht
      refine ih _ ?_ t ht
      simp only [parseStep]
      rcases hcat : findStrideCategory ⟨trimL hc.1⟩ with _ | cat
      · simpa using h
      · intro t2 ht2
        simp only at ht2
        rcases List.mem_append.mp ht2 with ht2 | ht2
        · exact h t2 ht2
        · rw [processCategoryContent_category cat _ t2 ht2]
          exact List.mem_of_find?_eq_some hcat
  intro t ht
  simp only [parseStrideThreats, parseStrideThreatsWithLog] at ht
  split at ht <;> exact main _ ([], []) (by simp) t (by simpa using ht)

/-- `totalThreats` equals the length of the flattened threat list. -/
theorem totalThreats_eq_length (tms : List ThreatModel) :
    totalThreats tms = (allThreats tms).length := by
  induction tms with
  | nil => rfl
  | cons tm rest ih =>
    simp only [totalThreats, allThreats, List.map_cons, List.sum_cons,
      List.flatMap_cons, List.length_append] at *
    omega

/-- A threat whose `riskLevel` is one of the four canonical strings. -/
def canonicalRisk (t : Threat) : Prop :=
  t.riskLevel = "Critical" ∨ t.riskLevel = "High" ∨
    t.riskLevel = "Medium" ∨ t.riskLevel = "Low"

instance (t : Threat) : Decidable (canonicalRisk t) := by
  unfold canonicalRisk
  infer_instance

/-- The four per-level filters partition a threat list whose risk levels are
all canonical. -/
theorem filter_risk_partition (l : List Threat)
    (h : ∀ t ∈ l, canonicalRisk t) :
    (l.filter fun t => t.riskLevel == "Critical").length +
    (l.filter fun t => t.riskLevel == "High").length +
    (l.filter fun t => t.riskLevel == "Medium").length +
    (l.filter fun t => t.riskLevel == "Low").length = l.length := by
  induction l with
  | nil => simp
  | cons t rest ih =>
    have hrest := ih fun t2 ht2 => h t2 (List.mem_cons_of_mem _ ht2)
    have hcanon := h t (by simp)
    simp only [List.filter_cons, List.length_cons]
    rcases hcanon with hc | hc | hc | hc <;>
      simp only [hc] <;> simp <;> omega

/-- The flattened threat list after the in-place global sort is a permutation
of the original one (only one model has its threats reordered). -/
theorem allThreats_sortGlobalThreats_perm (tms : List ThreatModel) :
    (allThreats (sortGlobalThreats tms)).Perm (allThreats tms) := by
  induction tms with
  | nil => simp [sortGlobalThreats, allThreats]
  | cons tm rest ih =>
    simp only [sortGlobalThreats]
    split
    · split
      · exact List.Perm.refl _
      · simp only [allThreats, List.flatMap_cons]
        exact (perm_sortDescBy _ tm.threats).append_right _
    · simp only [allThreats, List.flatMap_cons]
      exact (List.Perm.refl tm.threats).append ih

/-- `countRisk` as a `countP` over the flattened list. -/
theorem countRisk_eq_countP (lv : String) (tms : List ThreatModel) :
    countRisk lv tms = (allThreats tms).countP fun t => t.riskLevel == lv := by
  simp [countRisk, List.countP_eq_length_filter]

/-! ## Claim theorems -/

/-- Sample threats used by the concrete evaluations below. -/
def tCrit : Threat :=
  { category := "Spoofing", description := "sample critical threat",
    riskLevel := "Critical", mitigationStrategy := "mitigate" }

def tHigh : Threat :=
  { category := "Tampering", description := "sample high threat",
    riskLevel := "High", mitigationStrategy := "mitigate" }

def tLow : Threat :=
  { category := "Denial of Service", description := "sample low threat",
    riskLevel := "Low", mitigationStrategy := "mitigate" }

/-- The high-phrase test of the first branch of `extractRiskLevelV1`. -/
def hasHighPhraseV1 (s : String) : Bool :=
  jsIncludes (toLowerStr s) "high risk" || jsIncludes (toLowerStr s) "risk: high"

/-- The critical-phrase test of the second branch of `extractRiskLevelV1`. -/
def hasCriticalPhraseV1 (s : String) : Bool :=
  jsIncludes (toLowerStr s) "critical risk" ||
    jsIncludes (toLowerStr s) "risk: critical"

/-- The low-phrase test of the third branch of `extractRiskLevelV1`. -/
def hasLowPhraseV1 (s : String) : Bool :=
  jsIncludes (toLowerStr s) "low risk" || jsIncludes (toLowerStr s) "risk: low"

/-- C1 (counterexample): the claim says a sub-block containing both
"high risk" and "critical risk" phrasing is classified `Critical`; the risk
scanner of the generator classifies exactly such a section as `High`, because
its branch order checks the high phrases *first*. -/
theorem C1_counterexample :
    extractRiskLevelV1
        "This endpoint has high risk handling and critical risk exposure" =
      "High" ∧
    extractRiskLevelV1
        "This endpoint has high risk handling and critical risk exposure" ≠
      "Critical" := by
  constructor
  · decide
  · decide

/-- C1 (amended): the risk scanner checks the phrases in the order
high → critical → low (defaulting to `Medium`), so `Critical` is detected
only when no high phrase occurs: a sub-block containing both phrasings is
classified `High`. -/
theorem C1_amended (s : String) :
    (hasHighPhraseV1 s = true → extractRiskLevelV1 s = "High") ∧
    (hasHighPhraseV1 s = false → hasCriticalPhraseV1 s = true →
      extractRiskLevelV1 s = "Critical") ∧
    (hasHighPhraseV1 s = false → hasCriticalPhraseV1 s = false →
      hasLowPhraseV1 s = true → extractRiskLevelV1 s = "Low") ∧
    (hasHighPhraseV1 s = false → hasCriticalPhraseV1 s = false →
      hasLowPhraseV1 s = false → extractRiskLevelV1 s = "Medium") := by
  simp only [extractRiskLevelV1, hasHighPhraseV1, hasCriticalPhraseV1,
    hasLowPhraseV1]
  refine ⟨fun h1 => ?_, fun h1 h2 => ?_, fun h1 h2 h3 => ?_, fun h1 h2 h3 => ?_⟩
  · simp [h1]
  · simp [h1, h2]
  · simp [h1, h2, h3]
  · simp [h1, h2, h3]

theorem C1_witness :
    extractRiskLevelV1 "text with high risk words" = "High" ∧
    extractRiskLevelV1 "text with critical risk words" = "Critical" ∧
    extractRiskLevelV1 "text with low risk words" = "Low" ∧
    extractRiskLevelV1 "plain text" = "Medium" :=
  ⟨(C1_amended "text with high risk words").1 (by decide),
   (C1_amended "text with critical risk words").2.1 (by decide) (by decide),
   (C1_amended "text with low risk words").2.2.1 (by decide) (by decide)
     (by decide),
   (C1_amended "plain text").2.2.2 (by decide) (by decide) (by decide)⟩

set_option maxRecDepth 10000

/-- C7 (counterexample): a response whose labeled threat description is 160
characters long passes through `parseStrideThreats` *untruncated* — the
refactored parser applies no maximum display length, so the emitted threat
description exceeds 153 (= 150 plus the three-character ellipsis) characters. -/
theorem C7_counterexample :
    ((parseStrideThreats
        ("## Spoofing\n- Threat: " ++ String.mk (List.replicate 160 'a') ++
          "\n  Risk: High\n  Mitigation: fix")).map
      fun t => t.description.length) = [160] ∧ 150 + "...".length < 160 := by
  constructor
  · decide
  · decide

/-- C7 (amended): the 150-character-plus-ellipsis truncation exists only in
the *original* generator, whose per-category description extraction caps every
description at 153 characters; the refactored `parseStrideThreats` emits
descriptions of unbounded length (see the counterexample). -/
theorem C7_amended (d category sectionText : String) :
    (truncateDescriptionV1 d).length ≤ 153 ∧
    (extractDescriptionV1 category sectionText).length ≤ 153 := by
  have core : ∀ s : String, (truncateDescriptionV1 s).length ≤ 153 := by
    intro s
    simp only [truncateDescriptionV1]
    split
    · have h1 : (takeStr s 150).length ≤ 150 := by
        show (s.data.take 150).length ≤ 150
        simp
      have h2 : (takeStr s 150 ++ "...").length = (takeStr s 150).length + 3 := by
        rw [String.length_append, show ("..." : String).length = 3 from rfl]
      omega
    · omega
  exact ⟨core d, core _⟩

/-- C9: the stored entity name is the capture of the leftmost
`export class <name>` declaration when one exists (no earlier position of the
file text matches the declaration pattern), and otherwise the file name with
its `.entity.ts` suffix occurrence removed. -/
theorem C9_entity_name (content fileName : String) :
    (∀ n, firstExportClassName content = some n →
      entityNameFor content fileName = n ∧
      ∃ k, tryExportClassAt (content.data.drop k) = some n.data ∧
        ∀ j < k, tryExportClassAt (content.data.drop j) = none) ∧
    (firstExportClassName content = none →
      entityNameFor content fileName = replaceFirst fileName ".entity.ts" "" ∧
      ∀ k, tryExportClassAt (content.data.drop k) = none) := by
  constructor
  · intro n hn
    obtain ⟨l, hl, hln⟩ : ∃ l, scanFirst tryExportClassAt content.data = some l ∧
        (⟨l⟩ : String) = n := by
      unfold firstExportClassName at hn
      cases hsc : scanFirst tryExportClassAt content.data with
      | none => rw [hsc] at hn; simp at hn
      | some l =>
        rw [hsc] at hn
        exact ⟨l, rfl, by simpa using hn⟩
    refine ⟨?_, ?_⟩
    · unfold entityNameFor firstExportClassName
      rw [hl, ← hln]
      simp
    · rcases (scanFirst_spec tryExportClassAt content.data).1 l hl with
        ⟨k, _, hfk, hmin⟩
      refine ⟨k, ?_, hmin⟩
      subst hln
      simpa using hfk
  · intro hn
    have hsc : scanFirst tryExportClassAt content.data = none := by
      unfold firstExportClassName at hn
      cases hsc : scanFirst tryExportClassAt content.data with
      | none => rfl
      | some l => rw [hsc] at hn; simp at hn
    refine ⟨?_, (scanFirst_spec tryExportClassAt content.data).2 hsc⟩
    unfold entityNameFor firstExportClassName
    rw [hsc]
    simp

/-- C9 (witness, Scenario E): a file text with no exported class declaration
falls back to the name derived from the file name; a file text with one uses
the declared class name. -/
theorem C9_witness :
    entityNameFor "const x = 1;\n" "coffee.entity.ts" = "coffee" ∧
    entityNameFor "const base = 1;\nexport class Flavor extends CoffeeBase\n"
      "flavor.entity.ts" = "Flavor" :=
  ⟨((C9_entity_name "const x = 1;\n" "coffee.entity.ts").2 (by decide)).1,
   ((C9_entity_name
      "const base = 1;\nexport class Flavor extends CoffeeBase\n"
      "flavor.entity.ts").1 "Flavor" (by decide)).1⟩

/-- C10: when a block heading names several STRIDE categories, the block is
classified under the first matching category in the fixed enumeration order
(everything before it in `strideCategories` fails the heading test), and every
threat parsed out of that block is assigned exactly that category. -/
theorem C10_heading_first_category (heading : String) :
    (∀ c, findStrideCategory heading = some c →
      headingMatchesCategory heading c = true ∧
      ∃ pre suf, strideCategories = pre ++ c :: suf ∧
        ∀ c2 ∈ pre, headingMatchesCategory heading c2 = false) ∧
    (∀ cat content, ∀ t ∈ processCategoryContent cat content,
      t.category = cat) := by
  constructor
  · intro c hc
    exact find?_first_spec (headingMatchesCategory heading) strideCategories c hc
  · intro cat content t ht
    exact processCategoryContent_category cat content t ht

/-- C10 (witness): a heading containing both `Spoofing` and `Tampering` is
classified `Spoofing` (the earlier category of the enumeration), and a parse
of a block under such a heading yields only `Spoofing` threats. -/
theorem C10_witness :
    findStrideCategory "Spoofing and Tampering threats" = some "Spoofing" ∧
    headingMatchesCategory "Spoofing and Tampering threats" "Spoofing" = true ∧
    ((parseStrideThreats
        "## Spoofing and Tampering threats\n- Threat: forged identity data used here\n  Risk: High\n  Mitigation: authenticate").map
      fun t => t.category) = ["Spoofing"] :=
  ⟨by decide,
   ((C10_heading_first_category "Spoofing and Tampering threats").1 "Spoofing"
      (by decide)).1,
   by decide⟩

/-- C2: the parser is a total function — it returns a (possibly empty) threat
list for every input string.  The empty string parses to the empty list, every
returned threat is well-categorized, and a non-empty input that yields zero
threats produces a logged diagnostic containing a 300-character response
excerpt (and still returns the empty list rather than failing). -/
theorem C2_parser_total (s : String) :
    parseStrideThreats "" = [] ∧
    (∀ t ∈ parseStrideThreats s, t.category ∈ strideCategories) ∧
    ((trimStr s).isEmpty = false → parseStrideThreats s = [] →
      ∃ msg, msg ∈ (parseStrideThreatsWithLog s).2 ∧
        ("Raw response snippet: " ++ (takeStr s 300 ++ "...")).data <:+:
          msg.data) := by
  refine ⟨by decide, parseStrideThreats_categories s, fun hne hempty => ?_⟩
  have hres1 :
      ((categoryMatches (normalizeNewlines s.data).length.succ
        (normalizeNewlines s.data) true).foldl parseStep ([], [])).1 =
        parseStrideThreats s := by
    simp only [parseStrideThreats, parseStrideThreatsWithLog]
    split <;> rfl
  have hdiag : (parseStrideThreatsWithLog s).2 =
      ((categoryMatches (normalizeNewlines s.data).length.succ
        (normalizeNewlines s.data) true).foldl parseStep ([], [])).2 ++
        [parseFailDiag s] := by
    simp only [parseStrideThreatsWithLog]
    rw [if_pos]
    rw [hres1, hempty, hne]
    rfl
  refine ⟨parseFailDiag s, by rw [hdiag]; simp, ?_⟩
  have hsplit : parseFailDiagText =
      "⚠️ AI response received, but failed to parse any structured STRIDE threats. The AI might not have followed the requested format. " ++
        "Raw response snippet: " := by decide
  refine ⟨("⚠️ AI response received, but failed to parse any structured STRIDE threats. The AI might not have followed the requested format. " : String).data,
    [], ?_⟩
  rw [parseFailDiag, hsplit]
  simp [String.data_append, List.append_assoc]

/-- C2 (witness): a concrete malformed non-empty input parses to the empty
list and logs the diagnostic with its excerpt. -/
theorem C2_witness :
    ∃ msg, msg ∈ (parseStrideThreatsWithLog
        "hello world, nothing structured at all").2 ∧
      ("Raw response snippet: " ++
        (takeStr "hello world, nothing structured at all" 300 ++ "...")).data <:+:
        msg.data :=
  (C2_parser_total "hello world, nothing structured at all").2.2
    (by decide) (by decide)

/-- C3 (counterexample): the refactored report ranks endpoints by
2 × critical + high (not 3 × critical + high): for an endpoint with 2
Critical threats (spec score 6) against one with 5 High threats (spec score
5), the ranking lists the spec scores in ascending order [5, 6] — not
descending by the claimed score. -/
theorem C3_counterexample :
    ((endpointsWithHighCriticalV2
        [{ assetName := "GET /a", assetType := "endpoint",
           threats := [tCrit, tCrit] },
         { assetName := "GET /b", assetType := "endpoint",
           threats := [tHigh, tHigh, tHigh, tHigh, tHigh] }]).map
      fun r => specScore r.model) = [5, 6] ∧ (5 : ℕ) < 6 := by
  constructor
  · decide
  · decide

/-- C3 (amended): the *original* report generator scores endpoints by
3 × critical + high and ranks descending by that score; the *refactored*
generator ranks its endpoint highlights descending by 2 × critical + high. -/
theorem C3_amended (tms : List ThreatModel) :
    (∀ e ∈ endpointVulnerabilityScoresV1 tms,
      e.score = specScore e.threatModel) ∧
    List.Sorted (fun a b : ScoredEndpoint => b.score ≤ a.score)
      (endpointVulnerabilityScoresV1 tms) ∧
    List.Sorted (fun a b : RankedModel =>
        2 * b.criticalCount + b.highCount ≤ 2 * a.criticalCount + a.highCount)
      (endpointsWithHighCriticalV2 tms) := by
  refine ⟨?_, ?_, ?_⟩
  · intro e he
    have hmem := (perm_sortDescBy (fun e : ScoredEndpoint => (e.score : Int))
      _).subset he
    rcases List.mem_map.mp hmem with ⟨m, _, rfl⟩
    simp only [specScore]
    omega
  · have h := sorted_sortDescBy (fun e : ScoredEndpoint => (e.score : Int))
      ((tms.filter fun tm => tm.assetType == "endpoint").map fun m =>
        { name := m.assetName, score := criticalCount m * 3 + highCount m,
          threatModel := m })
    exact h.imp fun hab => by exact_mod_cast hab
  · have h := sorted_sortDescBy
      (fun r : RankedModel => (r.criticalCount * 2 + r.highCount : Int))
      (((tms.filter fun tm => tm.assetType == "endpoint").map fun m =>
          { model := m, criticalCount := criticalCount m,
            highCount := highCount m : RankedModel }).filter
        fun r => decide (0 < r.criticalCount) || decide (0 < r.highCount))
    have h2 := h.imp
      (S := fun a b : RankedModel =>
        2 * b.criticalCount + b.highCount ≤ 2 * a.criticalCount + a.highCount)
      fun hab => by
        have : (_ : Int) ≤ _ := hab
        omega
    exact h2

/-- C3 (witness, Scenario D): endpoints with 2 Critical/1 High and
0 Critical/3 High rank first and second with scores 7 and 3 in the original
ranking, and the stored score of the top entry equals the specification
formula. -/
theorem C3_witness :
    ((endpointVulnerabilityScoresV1
        [{ assetName := "POST /x", assetType := "endpoint",
           threats := [tCrit, tCrit, tHigh] },
         { assetName := "GET /y", assetType := "endpoint",
           threats := [tHigh, tHigh, tHigh] }]).map
      fun e => (e.name, e.score)) = [("POST /x", 7), ("GET /y", 3)] ∧
    ({ name := "POST /x", score := 7,
       threatModel := { assetName := "POST /x", assetType := "endpoint",
                        threats := [tCrit, tCrit, tHigh] } } :
      ScoredEndpoint).score =
      specScore { assetName := "POST /x", assetType := "endpoint",
                  threats := [tCrit, tCrit, tHigh] } :=
  ⟨by decide,
   (C3_amended
      [{ assetName := "POST /x", assetType := "endpoint",
         threats := [tCrit, tCrit, tHigh] },
       { assetName := "GET /y", assetType := "endpoint",
         threats := [tHigh, tHigh, tHigh] }]).1 _ (by decide)⟩

/-- C4 (counterexample): an endpoint whose AI response is non-empty but
unparseable yields `some` model with an *empty* threats list, and that model
is part of the final collection — refuting the claim that every model present
at final aggregation has a non-empty threat list. -/
theorem C4_counterexample :
    runCollectionV2
        [("GET /coffees", "just some plain text with no stride headings")]
        none =
      [{ assetName := "GET /coffees", assetType := "endpoint", threats := [] }] ∧
    (trimStr "just some plain text with no stride headings").isEmpty = false := by
  constructor
  · decide
  · decide

/-- C4 (amended): models are dropped (`null` / not appended) exactly for
empty or whitespace AI responses, and the *global* model is additionally
dropped when its parse yields zero threats; endpoint and data models from
non-empty responses are kept even when their parse yields zero threats. -/
theorem C4_amended (name r : String) (tms : List ThreatModel) :
    ((trimStr r).isEmpty = true →
      endpointModelOfResponse name r = none ∧
      dataModelOfResponse name r = none ∧
      globalAppendV2 tms r = tms) ∧
    (parseStrideThreats r = [] → globalAppendV2 tms r = tms) ∧
    ((trimStr r).isEmpty = false →
      endpointModelOfResponse name r =
        some { assetName := name, assetType := "endpoint",
               threats := parseStrideThreats r } ∧
      dataModelOfResponse name r =
        some { assetName := name, assetType := "data",
               threats := parseStrideThreats r }) := by
  refine ⟨fun h => ?_, fun h => ?_, fun h => ?_⟩
  · exact ⟨by simp [endpointModelOfResponse, h],
      by simp [dataModelOfResponse, h], by simp [globalAppendV2, h]⟩
  · simp only [globalAppendV2, h]
    split
    · rfl
    · rfl
  · exact ⟨by simp [endpointModelOfResponse, h],
      by simp [dataModelOfResponse, h]⟩

/-- C4 (witness): a whitespace response is dropped; a zero-threat parse keeps
the global collection unchanged; a non-empty response yields a kept model. -/
theorem C4_witness :
    endpointModelOfResponse "GET /coffees" "   " = none ∧
    globalAppendV2 [] "no stride content here" = [] ∧
    endpointModelOfResponse "GET /coffees" "x" =
      some { assetName := "GET /coffees", assetType := "endpoint",
             threats := parseStrideThreats "x" } :=
  ⟨((C4_amended "GET /coffees" "   " []).1 (by decide)).1,
   (C4_amended "GET /coffees" "no stride content here" []).2.1 (by decide),
   ((C4_amended "GET /coffees" "x" []).2.2 (by decide)).1⟩

/-- The collection of the C5 counterexample: one endpoint model whose single
threat was parsed from a response carrying `Risk: HIGH` — the case-insensitive
match captures the original-case text `"HIGH"`, which falls outside all four
canonical buckets. -/
def c5Collection : List ThreatModel :=
  runCollectionV2
    [("GET /coffees",
      "## Spoofing\n- Threat: something bad here indeed\n  Risk: HIGH\n  Mitigation: x")]
    none

/-- C5 (counterexample): (a) the original generator computes the percentages
without a zero guard, so an empty collection yields no numeric percentages
(`NaN`) instead of the claimed 0.0; (b) in the refactored generator a
reachable collection with one `"HIGH"`-risk threat has total 1 but a
percentage sum of 0, not 100. -/
theorem C5_counterexample :
    riskPercentagesV1 [] = (none, none, none, none) ∧
    totalThreats c5Collection = 1 ∧
    (riskPercentagesV2 c5Collection).1 + (riskPercentagesV2 c5Collection).2.1 +
      (riskPercentagesV2 c5Collection).2.2.1 +
      (riskPercentagesV2 c5Collection).2.2.2 = 0 ∧
    (0 : ℚ) ≠ 100 := by
  have htot : totalThreats c5Collection = 1 := by decide
  have h1 : countRisk "Critical" c5Collection = 0 := by decide
  have h2 : countRisk "High" c5Collection = 0 := by decide
  have h3 : countRisk "Medium" c5Collection = 0 := by decide
  have h4 : countRisk "Low" c5Collection = 0 := by decide
  refine ⟨by decide, htot, ?_, by norm_num⟩
  simp [riskPercentagesV2, pctV2, htot, h1, h2, h3, h4]

/-- C5 (amended): the refactored generator yields all-zero percentages and no
division fault when the total is zero (the original generator computes an
unguarded division there, yielding `NaN`); when the total is positive and
every risk level is one of the four canonical strings, the four percentages
sum to exactly 100. -/
theorem C5_amended (tms : List ThreatModel) :
    (totalThreats tms = 0 →
      riskPercentagesV2 tms = (0, 0, 0, 0) ∧
      riskPercentagesV1 tms = (none, none, none, none)) ∧
    (0 < totalThreats tms → (∀ t ∈ allThreats tms, canonicalRisk t) →
      (riskPercentagesV2 tms).1 + (riskPercentagesV2 tms).2.1 +
        (riskPercentagesV2 tms).2.2.1 + (riskPercentagesV2 tms).2.2.2 = 100) := by
  constructor
  · intro h0
    constructor
    · simp [riskPercentagesV2, pctV2, h0]
    · simp [riskPercentagesV1, pctV1, h0]
  · intro hpos hcanon
    have hpart := filter_risk_partition (allThreats tms) hcanon
    have hsum : countRisk "Critical" tms + countRisk "High" tms +
        countRisk "Medium" tms + countRisk "Low" tms = totalThreats tms := by
      simp only [countRisk]
      rw [totalThreats_eq_length]
      exact hpart
    have ht : ((totalThreats tms : ℚ)) ≠ 0 := by
      have hne0 : totalThreats tms ≠ 0 := by omega
      exact_mod_cast hne0
    simp only [riskPercentagesV2, pctV2, if_pos hpos]
    field_simp
    push_cast [← hsum]
    ring

/-- C5 (witness): the zero case at the empty collection and the sum at a
concrete three-threat collection. -/
theorem C5_witness :
    riskPercentagesV2 [] = (0, 0, 0, 0) ∧
    (riskPercentagesV2
        [{ assetName := "GET /", assetType := "endpoint",
           threats := [tCrit, tHigh, tLow] }]).1 +
      (riskPercentagesV2
        [{ assetName := "GET /", assetType := "endpoint",
           threats := [tCrit, tHigh, tLow] }]).2.1 +
      (riskPercentagesV2
        [{ assetName := "GET /", assetType := "endpoint",
           threats := [tCrit, tHigh, tLow] }]).2.2.1 +
      (riskPercentagesV2
        [{ assetName := "GET /", assetType := "endpoint",
           threats := [tCrit, tHigh, tLow] }]).2.2.2 = 100 :=
  ⟨((C5_amended []).1 (by decide)).1,
   (C5_amended
      [{ assetName := "GET /", assetType := "endpoint",
         threats := [tCrit, tHigh, tLow] }]).2 (by decide) (by decide)⟩

/-- C6 (counterexample): rendering the report sorts the threats of the first
`process`-type model *in place*: a collection whose global model lists a Low
threat before a Critical one is mutated — the model record changes, refuting
the no-mutation claim. -/
theorem C6_counterexample :
    sortGlobalThreats
        [{ assetName := "Global Application Architecture",
           assetType := "process", threats := [tLow, tCrit] }] =
      [{ assetName := "Global Application Architecture",
         assetType := "process", threats := [tCrit, tLow] }] ∧
    sortGlobalThreats
        [{ assetName := "Global Application Architecture",
           assetType := "process", threats := [tLow, tCrit] }] ≠
      [{ assetName := "Global Application Architecture",
         assetType := "process", threats := [tLow, tCrit] }] := by
  constructor
  · decide
  · decide

/-- C6 (amended): the only mutation of report synthesis is the in-place
descending-risk sort of the first `process`-type model; the risk statistics
(total and the four per-level counts) are invariant under it, and the
mutation is idempotent, so repeated aggregation runs yield identical
statistics. -/
theorem C6_amended (tms : List ThreatModel) :
    riskStatistics (sortGlobalThreats tms) = riskStatistics tms ∧
    sortGlobalThreats (sortGlobalThreats tms) = sortGlobalThreats tms := by
  constructor
  · have hperm := allThreats_sortGlobalThreats_perm tms
    have htot : totalThreats (sortGlobalThreats tms) = totalThreats tms := by
      rw [totalThreats_eq_length, totalThreats_eq_length, hperm.length_eq]
    have hcnt : ∀ lv, countRisk lv (sortGlobalThreats tms) = countRisk lv tms := by
      intro lv
      rw [countRisk_eq_countP, countRisk_eq_countP, hperm.countP_eq]
    simp only [riskStatistics, htot, hcnt]
  · induction tms with
    | nil => rfl
    | cons tm rest ih =>
      by_cases hp : tm.assetType = "process"
      · by_cases hempty : tm.threats.isEmpty
        · simp [sortGlobalThreats, hp, hempty]
        · have hne : (sortDescBy (fun t => (riskOrderNum t.riskLevel : Int))
              tm.threats).isEmpty = false := by
            have hlen := (perm_sortDescBy
              (fun t => (riskOrderNum t.riskLevel : Int)) tm.threats).length_eq
            rcases hsd : sortDescBy (fun t => (riskOrderNum t.riskLevel : Int))
                tm.threats with _ | ⟨a, t2⟩
            · rw [hsd] at hlen
              rcases hth : tm.threats with _ | ⟨b, t3⟩
              · rw [hth] at hempty; simp at hempty
              · rw [hth] at hlen; simp at hlen
            · rw [hsd]; rfl
          have hidem := sortDescBy_of_sorted
            (fun t : Threat => (riskOrderNum t.riskLevel : Int)) _
            (sorted_sortDescBy (fun t : Threat => (riskOrderNum t.riskLevel : Int))
              tm.threats)
          simp [sortGlobalThreats, hp, hempty, hne, hidem]
      · simp [sortGlobalThreats, hp, ih]

/-- C8 (counterexample): a run all of whose AI calls return the empty-string
failure sentinel ends with an empty collection, and file writing — including
the narrative report — is skipped even though the run did not fail fatally. -/
theorem C8_counterexample :
    reportWrittenV2
        (runCollectionV2 [("GET /coffees", ""), ("POST /coffees", "")]
          (some "")) = false := by
  decide

/-- C8 (amended): when the final collection is non-empty the report files are
written, and whenever the total threat count is zero the narrative contains
the explicit no-threats notice instead of empty sections; a non-fatal run
with an *empty* collection skips report writing entirely. -/
theorem C8_amended (dateStr model : String) (tms : List ThreatModel) :
    (tms ≠ [] → reportWrittenV2 tms = true) ∧
    (totalThreats tms = 0 →
      ("No threats were identified").data <:+:
        (reportContentV2 dateStr model tms).data) := by
  constructor
  · intro h
    cases tms with
    | nil => exact absurd rfl h
    | cons a t => rfl
  · intro h0
    have hzero : reportContentV2 dateStr model tms =
        reportHeader dateStr model ++ reportZeroNotice := by
      simp only [reportContentV2]
      rw [if_pos h0]
    rw [hzero]
    have hsplit : reportZeroNotice =
        "## Executive Summary\n\n" ++
        ("No threats were identified" ++
          (" or parsed from the analysis. This could be due to:\n" ++
           "- The application structure having no analyzable components.\n" ++
           "- Errors during the AI analysis phase.\n" ++
           "- The AI not responding in the expected format.\n\n" ++
           "Please review the console logs for more details.\n")) := by decide
    rw [hsplit]
    refine ⟨(reportHeader dateStr model).data ++
      ("## Executive Summary\n\n" : String).data,
      (" or parsed from the analysis. This could be due to:\n" ++
       "- The application structure having no analyzable components.\n" ++
       "- Errors during the AI analysis phase.\n" ++
       "- The AI not responding in the expected format.\n\n" ++
       "Please review the console logs for more details.\n" : String).data, ?_⟩
    simp [String.data_append, List.append_assoc]

/-- C8 (witness): a non-empty collection with zero total threats has its
report written and the narrative carries the notice. -/
theorem C8_witness :
    reportWrittenV2
        [{ assetName := "GET /", assetType := "endpoint", threats := [] }] =
      true ∧
    ("No threats were identified").data <:+:
      (reportContentV2 "2025-01-01" "gemma-3-27b-it"
        [{ assetName := "GET /", assetType := "endpoint",
           threats := [] }]).data :=
  ⟨(C8_amended "2025-01-01" "gemma-3-27b-it"
      [{ assetName := "GET /", assetType := "endpoint", threats := [] }]).1
      (by decide),
   (C8_amended "2025-01-01" "gemma-3-27b-it"
      [{ assetName := "GET /", assetType := "endpoint", threats := [] }]).2
      (by decide)⟩

end Stride
